import Mathlib

/-!
Shallow embedding of `scripts/migrate_from_gcp.py`, a one-shot migration
script that copies four tables from a source Postgres database (GCP Cloud
SQL) to a destination Postgres database (Neon).

The embedding models the database-visible behaviour of the script:

* `Table`   — the four tables named in `TABLES_TO_MIGRATE`.
* `DB`      — a database state: per table, its rows and the state of its
              associated identity sequence.
* `migrate_table`   — the per-table copy (`migrate_table` in the script,
              lines 189-241), with an explicit failure-injection point so
              that the transactional rollback behaviour of each phase can
              be stated.  The script uses THREE separate destination
              transactions: one for the `TRUNCATE` (line 206), one for all
              the `INSERT`s (line 217), and one for the sequence `setval`
              (line 232); the embedding mirrors that structure.
* `runTablesAux` / `mainRun` — the orchestration in `main`
              (lines 244-351): schema bootstrap, confirmation gate,
              per-table loop with fail-fast re-raise, and the final
              logged report (lines 334-344).

SQL semantics embedded:

* `TRUNCATE TABLE t RESTART IDENTITY CASCADE` empties `t` and every table
  with a foreign key referencing `t` (here only `interactions` references
  `people`), and restarts all their identity sequences.
* `INSERT` with explicit `id` values does not advance the sequence.
* `SELECT setval(seq, v)` (two-argument form, `is_called = true`) makes the
  next `nextval` return `v + 1`.

The script reads column lists from the source's `information_schema`
(`get_table_columns`); the script assumes the source schema matches the
destination schema it bootstraps (`ensure_schema_exists`, lines 105-158),
so the embedding takes each table's column list from that DDL.
-/

/-- The four tables of `TABLES_TO_MIGRATE` (script lines 42-47). -/
inductive Table
  | people
  | meal_logs
  | daily_meal_scores
  | interactions
deriving DecidableEq, Repr

/-- A row: an `id` value (meaningful for the three tables whose DDL has an
`id SERIAL PRIMARY KEY` column) plus the remaining column values,
abstracted as strings — the script copies values as-is and never inspects
them. -/
structure Row where
  id : Nat
  fields : List String
deriving DecidableEq, Repr

/-- The destination-visible state of one table: its rows (in storage
order) and the value the table's identity sequence would hand to the next
organic insert (`nextval`).  For `daily_meal_scores`, which has no
identity column, `seqNext` is inert. -/
structure TableData where
  rows : List Row
  seqNext : Nat
deriving DecidableEq, Repr

/-- A freshly truncated table: no rows, identity restarted
(`RESTART IDENTITY` puts the sequence back at its start value 1). -/
def TableData.truncated : TableData := ⟨[], 1⟩

/-- A database state: one `TableData` per migrated table. -/
structure DB where
  people : TableData
  meal_logs : TableData
  daily_meal_scores : TableData
  interactions : TableData
deriving DecidableEq, Repr

def DB.get (d : DB) : Table → TableData
  | .people => d.people
  | .meal_logs => d.meal_logs
  | .daily_meal_scores => d.daily_meal_scores
  | .interactions => d.interactions

def DB.set (d : DB) : Table → TableData → DB
  | .people, td => { d with people := td }
  | .meal_logs, td => { d with meal_logs := td }
  | .daily_meal_scores, td => { d with daily_meal_scores := td }
  | .interactions, td => { d with interactions := td }

/-- `TABLES_TO_MIGRATE` (script lines 42-47): the fixed copy order. -/
def TABLES_TO_MIGRATE : List Table :=
  [.people, .meal_logs, .daily_meal_scores, .interactions]

/-- Column lists, from the `CREATE TABLE` statements in
`ensure_schema_exists` (script lines 109-154). -/
def get_table_columns : Table → List String
  | .people =>
      ["id", "name", "note", "gender", "importance", "alive", "tag",
       "relationships", "created_at", "updated_at"]
  | .meal_logs =>
      ["id", "user_id", "description", "health_score", "health_comment",
       "date", "created_at", "updated_at"]
  | .daily_meal_scores =>
      ["user_id", "date", "health_score", "health_comment", "created_at",
       "updated_at"]
  | .interactions =>
      ["id", "user_id", "person_id", "interaction_type", "date", "note",
       "created_at", "updated_at"]

/-- Tables that reference `t` by foreign key, i.e. the extra tables
emptied by `TRUNCATE t ... CASCADE`.  From the DDL: only
`interactions.person_id REFERENCES people(id)`. -/
def referencedBy : Table → List Table
  | .people => [.interactions]
  | _ => []

/-- The foreign-key dependency of a table, from the DDL: `interactions`
references `people`; the other three tables reference nothing. -/
def referencesTable : Table → Option Table
  | .interactions => some .people
  | _ => none

/-- `get_table_count` (script lines 161-167): `SELECT COUNT(*)`. -/
def get_table_count (d : DB) (t : Table) : Nat := (d.get t).rows.length

/-- `TRUNCATE TABLE t RESTART IDENTITY CASCADE` (script line 207): empty
`t` and every table referencing it, restarting their identities. -/
def truncateCascade (d : DB) (t : Table) : DB :=
  (referencedBy t).foldl (fun acc u => acc.set u TableData.truncated)
    (d.set t TableData.truncated)

/-- The batch slicing of the insert loop (script line 218):
`for i in range(0, len(rows), batch_size)` visits the
`⌈len(rows) / batch_size⌉` indices `0, bs, 2*bs, ...`, and
`rows[i : i + batch_size]` is `(rows.drop i).take bs`. -/
def batchSlices (bs : Nat) (rows : List Row) : List (List Row) :=
  (List.range ((rows.length + bs - 1) / bs)).map
    (fun j => (rows.drop (j * bs)).take bs)

/-- The insert loop (script lines 217-228): every row of every batch is
written, in order, into the (already truncated) destination table, inside
one transaction.  Inserting explicit `id` values does not advance the
sequence. -/
def writeRows (td : TableData) (rows : List Row) (bs : Nat) : TableData :=
  (batchSlices bs rows).foldl (fun acc batch => { acc with rows := acc.rows ++ batch }) td

/-- The sequence resync (script lines 232-237):
`SELECT setval(pg_get_serial_sequence(t, 'id'), COALESCE(MAX(id), 1))`.
Two-argument `setval` leaves `is_called = true`, so the next `nextval`
returns the argument plus one. -/
def resetSequence (td : TableData) : TableData :=
  { td with
    seqNext :=
      (if td.rows.isEmpty then 1
       else (td.rows.map Row.id).foldl Nat.max 0) + 1 }

/-- Injection point for a failure (a raised exception) inside
`migrate_table`: during the truncate transaction (line 206), the bulk
source read (line 211), the insert transaction (line 217), the `setval`
transaction (line 232), or no failure. -/
inductive FailPhase
  | noFail
  | duringTruncate
  | duringRead
  | duringWrite
  | duringSeqReset
deriving DecidableEq, Repr

/-- The spec's `CopyResult` record: table, source count, destination
count after copy.  The script defines no such structure; this type exists
only to state what `migrate_table` would have to return for the spec's
description to hold. -/
structure CopyResult where
  table : Table
  sourceCount : Nat
  destCount : Nat
deriving DecidableEq, Repr

/-- The observable outcome of one `migrate_table` call:

* `dest`    — the destination database afterwards (with transactional
  rollback applied for the failing phase);
* `ok`      — whether the call returned normally (`false` = exception);
* `retval`  — the Python return value.  Both `return` statements of
  `migrate_table` (line 198 and falling off the end, line 241) return
  `None`, so this is `none` on every path;
* `loggedDestCount` — the destination count re-read at line 240 and
  written to the log at line 241 (`none` when that line is not reached).
-/
structure CopyOutcome where
  dest : DB
  ok : Bool
  retval : Option CopyResult
  loggedDestCount : Option Nat
deriving DecidableEq, Repr

/-- `migrate_table(source_engine, dest_engine, table, batch_size)`
(script lines 189-241), with `ph` the injected failure point.

Phase structure, faithful to the script:
1. read the source count; if zero, return at once (line 198) — no
   truncate, no writes;
2. truncate the destination table in its own transaction (lines 206-208);
   a failure inside it rolls that transaction back, leaving the
   destination untouched; once the block exits, the truncate is COMMITTED;
3. bulk-read the source rows (lines 211-213); a failure here leaves the
   destination in its post-truncate state;
4. insert all rows, in batches, inside one transaction (lines 217-228); a
   failure anywhere in it rolls back every insert, leaving the
   destination in its post-truncate state;
5. if `"id" in columns and table != "daily_meal_scores"` (line 231),
   resync the sequence in a third transaction (lines 232-237); a failure
   here rolls back only the `setval`, keeping the inserted rows;
6. re-read the destination count and log it (lines 240-241); return
   `None`. -/
def migrate_table (src : DB) (dest : DB) (t : Table) (bs : Nat)
    (ph : FailPhase) : CopyOutcome :=
  let source_count := get_table_count src t
  if source_count = 0 then
    ⟨dest, true, none, none⟩
  else if ph = .duringTruncate then
    ⟨dest, false, none, none⟩
  else
    let d1 := truncateCascade dest t
    if ph = .duringRead then
      ⟨d1, false, none, none⟩
    else
      let rows := (src.get t).rows
      if ph = .duringWrite then
        ⟨d1, false, none, none⟩
      else
        let d2 := d1.set t (writeRows (d1.get t) rows bs)
        if "id" ∈ get_table_columns t ∧ t ≠ .daily_meal_scores then
          if ph = .duringSeqReset then
            ⟨d2, false, none, none⟩
          else
            let d3 := d2.set t (resetSequence (d2.get t))
            ⟨d3, true, none, some (get_table_count d3 t)⟩
        else
          ⟨d2, true, none, some (get_table_count d2 t)⟩

/-- The per-table loop of `main` (script lines 327-332): migrate each
table in order; any exception is logged and re-raised, aborting the loop.
Returns the final destination, whether every table succeeded, and the
trace of tables on which `migrate_table` was invoked, in invocation
order. -/
def runTablesAux (src : DB) (failAt : Table → FailPhase) (bs : Nat) :
    List Table → DB → DB × Bool × List Table
  | [], d => (d, true, [])
  | t :: ts, d =>
    let out := migrate_table src d t bs (failAt t)
    if out.ok then
      let rest := runTablesAux src failAt bs ts out.dest
      (rest.1, rest.2.1, t :: rest.2.2)
    else
      (out.dest, false, [t])

/-- The whole migration loop over `TABLES_TO_MIGRATE`. -/
def runTables (src : DB) (dest : DB) (failAt : Table → FailPhase)
    (bs : Nat) : DB × Bool × List Table :=
  runTablesAux src failAt bs TABLES_TO_MIGRATE dest

/-- Which of the four tables exist in the destination (schema state). -/
structure SchemaState where
  hasPeople : Bool
  hasMealLogs : Bool
  hasDailyMealScores : Bool
  hasInteractions : Bool
deriving DecidableEq, Repr

/-- `ensure_schema_exists` (script lines 105-158): `CREATE TABLE IF NOT
EXISTS` for all four tables — after it, every table exists; pre-existing
tables (and all data) are untouched. -/
def ensure_schema_exists (_s : SchemaState) : SchemaState :=
  ⟨true, true, true, true⟩

/-- One line of the final-state block `main` logs (script lines 336-340):
per-table source count, destination count, and the `✓`/`⚠` indicator
computed as `source_count == dest_count` (line 339). -/
structure ReportLine where
  table : Table
  sourceCount : Nat
  destCount : Nat
  matched : Bool
deriving DecidableEq, Repr

/-- The final logged report of `main`: the per-table lines
(lines 336-340) and whether the closing `Migration completed
successfully!` banner (line 343) was logged.  This models log output;
`main` returns no value. -/
structure RunReport where
  lines : List ReportLine
  reportedSuccess : Bool
deriving DecidableEq, Repr

/-- Command-line / operator input to `main`: the `--yes` flag and the raw
text typed at the confirmation prompt (line 320). -/
structure MainArgs where
  yes : Bool
  response : String
deriving DecidableEq, Repr

/-- Python's `str.strip()`: drop whitespace from both ends. -/
def pyStrip (s : String) : String :=
  ⟨(((s.data.dropWhile Char.isWhitespace).reverse.dropWhile
      Char.isWhitespace).reverse)⟩

/-- Python's `str.lower()`: lowercase every character. -/
def pyToLower (s : String) : String :=
  ⟨s.data.map Char.toLower⟩

/-- The observable outcome of a `main` run:

* `exitCode` — the process exit status (0 on normal return or
  `sys.exit(0)` at line 323; 1 via `sys.exit(1)` at line 351);
* `schema`   — destination schema state on exit;
* `db`       — destination data on exit;
* `trace`    — tables on which `migrate_table` was invoked, in order;
* `probesRan` — whether the two `SELECT 1` liveness probes
  (lines 289-295) ran;
* `report`   — the final logged report block, when reached. -/
structure MainOutcome where
  exitCode : Nat
  schema : SchemaState
  db : DB
  trace : List Table
  probesRan : Bool
  report : Option RunReport
deriving DecidableEq, Repr

/-- `main` (script lines 244-351), from the point where the environment
variables have validated and both engines connect (the claims under
verification all live past that point).  Order of effects, faithful to
the script: liveness probes (289-295), schema bootstrap (298-299),
read-only pre-migration counts (302-309), confirmation gate (319-323),
per-table migration loop (326-332), final logged report (334-344); any
exception in the loop reaches the `except` at 346 and exits with
status 1. -/
def mainRun (args : MainArgs) (src : DB) (schema0 : SchemaState)
    (dest0 : DB) (failAt : Table → FailPhase) : MainOutcome :=
  let schema1 := ensure_schema_exists schema0
  if ¬ args.yes ∧ pyToLower (pyStrip args.response) ≠ "y" then
    ⟨0, schema1, dest0, [], true, none⟩
  else
    let r := runTables src dest0 failAt 1000
    if r.2.1 then
      let lines := TABLES_TO_MIGRATE.map (fun t =>
        ⟨t, get_table_count src t, get_table_count r.1 t,
         get_table_count src t == get_table_count r.1 t⟩)
      ⟨0, schema1, r.1, r.2.2, true, some ⟨lines, true⟩⟩
    else
      ⟨1, schema1, r.1, r.2.2, true, none⟩

/-! ## Helper lemmas -/

theorem ceil_div_step (n bs : Nat) (hn : 0 < n) (hbs : 0 < bs) :
    (n + bs - 1) / bs = (n - bs + bs - 1) / bs + 1 := by
  rcases Nat.lt_or_ge n bs with h | h
  · have h1 : n - bs = 0 := by omega
    have h2 : (0 + bs - 1) / bs = 0 := Nat.div_eq_of_lt (by omega)
    have h3 : (n + bs - 1) / bs = 1 := by
      apply Nat.div_eq_of_lt_le (by omega) (by omega)
    rw [h1, h2, h3]
  · have he : n + bs - 1 = (n - bs + bs - 1) + bs := by omega
    rw [he, Nat.add_div_right _ hbs]

theorem batchSlices_flatten_aux (bs : Nat) (hbs : 0 < bs) :
    ∀ (n : Nat) (rows : List Row), rows.length ≤ n →
      (batchSlices bs rows).flatten = rows := by
  intro n
  induction n with
  | zero =>
    intro rows h
    have hr : rows = [] := List.eq_nil_of_length_eq_zero (by omega)
    subst hr
    simp [batchSlices]
  | succ n ih =>
    intro rows h
    rcases eq_or_ne rows [] with rfl | hne
    · simp [batchSlices]
    · have hlen : 0 < rows.length := List.length_pos.mpr hne
      rw [batchSlices, ceil_div_step _ _ hlen hbs,
        List.range_succ_eq_map]
      simp only [List.map_cons, List.map_map, List.flatten_cons,
        Nat.zero_mul, List.drop_zero]
      have hmap :
          (List.range ((rows.length - bs + bs - 1) / bs)).map
              ((fun j => (rows.drop (j * bs)).take bs) ∘ Nat.succ)
            = batchSlices bs (rows.drop bs) := by
        rw [batchSlices, List.length_drop]
        apply List.map_congr_left
        intro j _
        simp only [Function.comp_apply]
        have hd : rows.drop (Nat.succ j * bs) = (rows.drop bs).drop (j * bs) := by
          rw [List.drop_drop]
          congr 1
          rw [Nat.succ_mul]
          ring
        rw [hd]
      rw [hmap, ih (rows.drop bs) (by simp [List.length_drop]; omega)]
      exact List.take_append_drop bs rows

theorem writeRows_foldl (bss : List (List Row)) (td : TableData) :
    bss.foldl (fun acc batch => { acc with rows := acc.rows ++ batch }) td
      = { td with rows := td.rows ++ bss.flatten } := by
  induction bss generalizing td with
  | nil => simp
  | cons b bss ih => simp [ih, List.append_assoc]

theorem writeRows_eq (td : TableData) (rows : List Row) (bs : Nat)
    (hbs : 0 < bs) :
    writeRows td rows bs = { td with rows := td.rows ++ rows } := by
  rw [writeRows, writeRows_foldl,
    batchSlices_flatten_aux bs hbs rows.length rows le_rfl]

theorem DB.get_set_self (d : DB) (t : Table) (td : TableData) :
    (d.set t td).get t = td := by
  cases t <;> rfl

theorem truncateCascade_get_self (d : DB) (t : Table) :
    (truncateCascade d t).get t = TableData.truncated := by
  cases t <;> rfl

theorem foldl_max_init (l : List Nat) (a : Nat) :
    a ≤ l.foldl Nat.max a := by
  induction l generalizing a with
  | nil => simp
  | cons b l ih =>
    exact le_trans (Nat.le_max_left a b) (ih (Nat.max a b))

theorem le_foldl_max (l : List Nat) (a : Nat) (x : Nat) (hx : x ∈ l) :
    x ≤ l.foldl Nat.max a := by
  induction l generalizing a with
  | nil => cases hx
  | cons b l ih =>
    rcases List.mem_cons.mp hx with h | h
    · subst h
      exact le_trans (Nat.le_max_right a x) (foldl_max_init l (Nat.max a x))
    · exact ih (Nat.max a b) h

/-- On the success path (`noFail`, nonzero source count), the migrated
table ends as exactly the source rows on a truncate-restarted identity,
with the sequence resynced when the `"id" in columns` guard holds. -/
theorem migrate_table_get_self (src dest : DB) (t : Table) (bs : Nat)
    (hbs : 0 < bs) (h0 : get_table_count src t ≠ 0) :
    (migrate_table src dest t bs .noFail).dest.get t =
      (if "id" ∈ get_table_columns t ∧ t ≠ .daily_meal_scores then
        resetSequence ⟨(src.get t).rows, 1⟩
      else ⟨(src.get t).rows, 1⟩) := by
  simp only [migrate_table, h0, if_false, reduceCtorEq, if_true]
  split
  · simp [DB.get_set_self, truncateCascade_get_self,
      writeRows_eq _ _ _ hbs, TableData.truncated]
  · simp [DB.get_set_self, truncateCascade_get_self,
      writeRows_eq _ _ _ hbs, TableData.truncated]

/-- Sample source database: `people` has two rows, `meal_logs` one,
`daily_meal_scores` none, `interactions` one. -/
def sampleSrc : DB :=
  ⟨⟨[⟨1, ["alice"]⟩, ⟨4, ["amy"]⟩], 1⟩,
   ⟨[⟨2, ["sandwich"]⟩], 1⟩,
   ⟨[], 1⟩,
   ⟨[⟨3, ["call"]⟩], 2⟩⟩

/-- Sample destination database with pre-existing (stale) data. -/
def sampleDest : DB :=
  ⟨⟨[⟨9, ["old"]⟩], 5⟩,
   ⟨[], 1⟩,
   ⟨[⟨0, ["stale"]⟩], 1⟩,
   ⟨[⟨8, ["oldint"]⟩], 2⟩⟩

/-- C2: for every table whose source row count `N` is positive, a
successful copy leaves the destination row count for that table equal to
`N`: the copy truncates the destination table and inserts exactly the
rows read from the source. -/
theorem c2_dest_count_eq_source (src dest : DB) (t : Table) (bs : Nat)
    (hbs : 0 < bs) (h : 0 < get_table_count src t) :
    get_table_count (migrate_table src dest t bs .noFail).dest t
      = get_table_count src t := by
  have h0 : get_table_count src t ≠ 0 := by omega
  rw [get_table_count, migrate_table_get_self src dest t bs hbs h0]
  split <;> simp [resetSequence, get_table_count]

/-- Witness for C2 at a concrete input: migrating `people` (source count
2) into a destination that previously held one `people` row. -/
theorem c2_dest_count_eq_source_witness :
    0 < get_table_count sampleSrc .people ∧
    get_table_count
        (migrate_table sampleSrc sampleDest .people 1000 .noFail).dest
        .people
      = get_table_count sampleSrc .people :=
  ⟨by decide,
   c2_dest_count_eq_source sampleSrc sampleDest .people 1000 (by decide)
     (by decide)⟩

/-- C6: for every table whose source row count is zero, `migrate_table`
returns at once: no truncation, no writes — the whole destination
database (contents and counts) is exactly what it was, on every failure
injection. -/
theorem c6_zero_source_skip (src dest : DB) (t : Table) (bs : Nat)
    (ph : FailPhase) (h : get_table_count src t = 0) :
    (migrate_table src dest t bs ph).dest = dest ∧
    (migrate_table src dest t bs ph).ok = true := by
  simp [migrate_table, h]

/-- Witness for C6 at a concrete input: `daily_meal_scores` has zero
source rows; the destination (which holds one stale row) is untouched. -/
theorem c6_zero_source_skip_witness :
    get_table_count sampleSrc .daily_meal_scores = 0 ∧
    ((migrate_table sampleSrc sampleDest .daily_meal_scores 1000
        .noFail).dest = sampleDest ∧
     (migrate_table sampleSrc sampleDest .daily_meal_scores 1000
        .noFail).ok = true) :=
  ⟨by decide,
   c6_zero_source_skip sampleSrc sampleDest .daily_meal_scores 1000
     .noFail (by decide)⟩

/-- C4: for every table that declares an identity column and is not the
exempted composite-key table `daily_meal_scores`, a successful copy of a
nonempty source leaves the destination sequence so that the next organic
insert receives an identity strictly greater than every migrated row's
identity value. -/
theorem c4_sequence_resync (src dest : DB) (t : Table) (bs : Nat)
    (hbs : 0 < bs) (h : 0 < get_table_count src t)
    (hid : "id" ∈ get_table_columns t) (hne : t ≠ .daily_meal_scores) :
    ∀ r ∈ ((migrate_table src dest t bs .noFail).dest.get t).rows,
      r.id < ((migrate_table src dest t bs .noFail).dest.get t).seqNext := by
  have h0 : get_table_count src t ≠ 0 := by omega
  rw [migrate_table_get_self src dest t bs hbs h0, if_pos ⟨hid, hne⟩]
  intro r hr
  simp only [resetSequence] at *
  have hne' : ¬ (src.get t).rows.isEmpty := by
    rw [List.isEmpty_iff]
    intro hemp
    rw [get_table_count, hemp] at h
    simp at h
  rw [if_neg hne']
  have : r.id ≤ ((src.get t).rows.map Row.id).foldl Nat.max 0 :=
    le_foldl_max _ 0 r.id (List.mem_map.mpr ⟨r, hr, rfl⟩)
  omega

/-- Witness for C4 at a concrete input: after migrating `people` (ids 1
and 4), the sequence hands out values strictly above every migrated id. -/
theorem c4_sequence_resync_witness :
    0 < get_table_count sampleSrc .people ∧
    ("id" ∈ get_table_columns .people ∧
     ∀ r ∈ ((migrate_table sampleSrc sampleDest .people 1000
         .noFail).dest.get .people).rows,
       r.id < ((migrate_table sampleSrc sampleDest .people 1000
         .noFail).dest.get .people).seqNext) :=
  ⟨by decide, by decide,
   c4_sequence_resync sampleSrc sampleDest .people 1000 (by decide)
     (by decide) (by decide) (by decide)⟩

/-- C1 counterexample: a failure injected during the write phase of
`people`'s copy (source count 2, destination previously one row) does NOT
leave the destination table as it was: the truncate was committed in its
own transaction (script lines 206-208) before the separate insert
transaction (line 217), so the table is left empty. -/
theorem c1_counterexample :
    (migrate_table sampleSrc sampleDest .people 1000 .duringWrite).ok
        = false ∧
    ¬ ((migrate_table sampleSrc sampleDest .people 1000
        .duringWrite).dest.get .people = sampleDest.get .people) := by
  decide

/-- C1 amended: a failure during the truncate transaction rolls back and
leaves the destination exactly as before the attempt; a failure during
the source read or during the insert transaction rolls back every insert
— so no PARTIAL row set ever persists — but finds the truncate already
committed, leaving the destination in its post-truncate state, with the
failed table's rows empty. -/
theorem c1_failure_rollback (src dest : DB) (t : Table) (bs : Nat)
    (h : 0 < get_table_count src t) :
    ((migrate_table src dest t bs .duringTruncate).ok = false ∧
     (migrate_table src dest t bs .duringTruncate).dest = dest) ∧
    (∀ ph, ph = .duringRead ∨ ph = .duringWrite →
      (migrate_table src dest t bs ph).ok = false ∧
      (migrate_table src dest t bs ph).dest = truncateCascade dest t ∧
      ((migrate_table src dest t bs ph).dest.get t).rows = []) := by
  have h0 : get_table_count src t ≠ 0 := by omega
  refine ⟨⟨?_, ?_⟩, ?_⟩
  · simp [migrate_table, h0]
  · simp [migrate_table, h0]
  · rintro ph (rfl | rfl) <;>
      simp [migrate_table, h0, truncateCascade_get_self,
        TableData.truncated]

/-- Witness for the amended C1 at a concrete input: the write-phase
failure on `people` rolls its inserts back, leaving the table truncated
(empty), not partially written. -/
theorem c1_failure_rollback_witness :
    0 < get_table_count sampleSrc .people ∧
    ((migrate_table sampleSrc sampleDest .people 1000 .duringWrite).ok
        = false ∧
     (migrate_table sampleSrc sampleDest .people 1000 .duringWrite).dest
        = truncateCascade sampleDest .people ∧
     ((migrate_table sampleSrc sampleDest .people 1000
        .duringWrite).dest.get .people).rows = []) :=
  ⟨by decide,
   (c1_failure_rollback sampleSrc sampleDest .people 1000
     (by decide)).2 .duringWrite (Or.inr rfl)⟩

/-- C3 counterexample: with `daily_meal_scores` empty at the source but
holding one stale destination row, the final report block contains a
mismatch line (`⚠`, `matched = false`), yet the `Migration completed
successfully!` banner is logged (`reportedSuccess = true`) and the
process exits with status 0: `main` never gates overall success on the
per-table count comparison. -/
theorem c3_counterexample :
    (mainRun ⟨true, ""⟩ sampleSrc ⟨true, true, true, true⟩ sampleDest
        (fun _ => .noFail)).report =
      some ⟨[⟨.people, 2, 2, true⟩, ⟨.meal_logs, 1, 1, true⟩,
             ⟨.daily_meal_scores, 0, 1, false⟩,
             ⟨.interactions, 1, 1, true⟩], true⟩ ∧
    (mainRun ⟨true, ""⟩ sampleSrc ⟨true, true, true, true⟩ sampleDest
        (fun _ => .noFail)).exitCode = 0 := by
  decide

/-- C3 amended: `main` does emit a per-table match/mismatch indicator —
each line's flag is exactly `source_count == dest_count` — but whenever
the copy loop finishes without an exception it logs the success banner
(`reportedSuccess = true`) unconditionally: overall success is never
gated on the per-table count comparison, and no structured report is
built beyond the log lines. -/
theorem c3_success_banner_unconditional (args : MainArgs) (src : DB)
    (s0 : SchemaState) (d0 : DB) (failAt : Table → FailPhase)
    (rep : RunReport)
    (h : (mainRun args src s0 d0 failAt).report = some rep) :
    rep.reportedSuccess = true ∧
    rep.lines.length = TABLES_TO_MIGRATE.length ∧
    ∀ l ∈ rep.lines, l.matched = (l.sourceCount == l.destCount) := by
  simp only [mainRun] at h
  split at h
  · cases h
  · split at h
    · simp only [Option.some.injEq] at h
      subst h
      refine ⟨rfl, by simp, ?_⟩
      intro l hl
      rcases List.mem_map.mp hl with ⟨t, _, hteq⟩
      subst hteq
      rfl
    · cases h

/-- The report produced by the run of `c3_counterexample` (one mismatch
line, success banner logged anyway). -/
def sampleReport : RunReport :=
  ⟨[⟨.people, 2, 2, true⟩, ⟨.meal_logs, 1, 1, true⟩,
    ⟨.daily_meal_scores, 0, 1, false⟩, ⟨.interactions, 1, 1, true⟩],
   true⟩

/-- Witness for the amended C3 at a concrete input: the sample run's
logged report carries the success banner and one line per table. -/
theorem c3_success_banner_unconditional_witness :
    (mainRun ⟨true, "y"⟩ sampleSrc ⟨true, true, true, true⟩ sampleDest
        (fun _ => .noFail)).report = some sampleReport ∧
    sampleReport.reportedSuccess = true ∧
    sampleReport.lines.length = TABLES_TO_MIGRATE.length :=
  ⟨by decide,
   (c3_success_banner_unconditional ⟨true, "y"⟩ sampleSrc
     ⟨true, true, true, true⟩ sampleDest (fun _ => .noFail) sampleReport
     (by decide)).1,
   (c3_success_banner_unconditional ⟨true, "y"⟩ sampleSrc
     ⟨true, true, true, true⟩ sampleDest (fun _ => .noFail) sampleReport
     (by decide)).2.1⟩

theorem runTablesAux_trace_take (src : DB) (failAt : Table → FailPhase)
    (bs : Nat) :
    ∀ (ts : List Table) (d : DB),
      ∃ k, (runTablesAux src failAt bs ts d).2.2 = ts.take k := by
  intro ts
  induction ts with
  | nil => exact fun d => ⟨0, rfl⟩
  | cons t ts ih =>
    intro d
    rcases ih (migrate_table src d t bs (failAt t)).dest with ⟨k, hk⟩
    by_cases hok : (migrate_table src d t bs (failAt t)).ok
    · exact ⟨k + 1, by simp [runTablesAux, hok, hk]⟩
    · exact ⟨1, by simp [runTablesAux, hok]⟩

/-- C5: the copy sequence follows the precomputed order: every run's
invocation trace is an initial segment of `TABLES_TO_MIGRATE` (tables
are attempted strictly one at a time in list order), every
foreign-key-referencing table sits strictly after the table it
references in that order, and whenever the dependent table is reached at
all, the whole order — its referenced table first — was followed. -/
theorem c5_dependency_order (src dest : DB) (failAt : Table → FailPhase)
    (bs : Nat) (t d : Table) (href : referencesTable t = some d) :
    (∃ k, (runTables src dest failAt bs).2.2 = TABLES_TO_MIGRATE.take k) ∧
    TABLES_TO_MIGRATE.indexOf d < TABLES_TO_MIGRATE.indexOf t ∧
    (t ∈ (runTables src dest failAt bs).2.2 →
      (runTables src dest failAt bs).2.2 = TABLES_TO_MIGRATE) := by
  cases t <;> simp only [referencesTable, Option.some.injEq,
    reduceCtorEq] at href
  subst href
  simp only [runTables]
  refine ⟨runTablesAux_trace_take src failAt bs TABLES_TO_MIGRATE dest,
    by decide, ?_⟩
  rcases runTablesAux_trace_take src failAt bs TABLES_TO_MIGRATE dest
    with ⟨k, hk⟩
  rw [hk]
  intro hmem
  rcases k with _ | _ | _ | _ | k <;>
    simp_all [TABLES_TO_MIGRATE, List.take_succ_cons]

/-- Witness for C5 at a concrete input: in the sample run,
`interactions` (which references `people`) is attempted, the trace is
the full precomputed order, and `people` precedes `interactions` in it. -/
theorem c5_dependency_order_witness :
    referencesTable .interactions = some .people ∧
    TABLES_TO_MIGRATE.indexOf Table.people
      < TABLES_TO_MIGRATE.indexOf Table.interactions ∧
    (runTables sampleSrc sampleDest (fun _ => .noFail) 1000).2.2
      = TABLES_TO_MIGRATE :=
  ⟨rfl,
   (c5_dependency_order sampleSrc sampleDest (fun _ => .noFail) 1000
     .interactions .people rfl).2.1,
   (c5_dependency_order sampleSrc sampleDest (fun _ => .noFail) 1000
     .interactions .people rfl).2.2 (by decide)⟩

theorem migrate_table_noFail_ok (src : DB) (d : DB) (t : Table)
    (bs : Nat) : (migrate_table src d t bs .noFail).ok = true := by
  simp only [migrate_table, reduceCtorEq, if_false]
  split
  · rfl
  · split <;> rfl

theorem runTablesAux_fail_stop (src : DB) (failAt : Table → FailPhase)
    (bs : Nat) (t : Table)
    (hfail : ∀ d', (migrate_table src d' t bs (failAt t)).ok = false) :
    ∀ (ts1 : List Table) (ts2 : List Table) (d : DB),
      (∀ u ∈ ts1, failAt u = .noFail) →
      (runTablesAux src failAt bs (ts1 ++ t :: ts2) d).2.1 = false ∧
      (runTablesAux src failAt bs (ts1 ++ t :: ts2) d).2.2 = ts1 ++ [t] := by
  intro ts1
  induction ts1 with
  | nil =>
    intro ts2 d _
    simp [runTablesAux, hfail d]
  | cons u ts1 ih =>
    intro ts2 d hok
    have hu : failAt u = .noFail := hok u (List.mem_cons_self u ts1)
    have hrest := ih ts2 (migrate_table src d u bs (failAt u)).dest
      (fun v hv => hok v (List.mem_cons_of_mem u hv))
    rw [hu] at hrest
    simp [runTablesAux, hu, migrate_table_noFail_ok, hrest.1, hrest.2]

/-- C7: if an exception is raised during some table's copy (every table
before it copying cleanly), the run aborts at that table: the invocation
trace is exactly the clean tables followed by the failing one, no
later table is ever attempted, and the process exits with status 1. -/
theorem c7_fail_fast (args : MainArgs) (src : DB) (s0 : SchemaState)
    (d0 : DB) (failAt : Table → FailPhase) (ts1 : List Table) (t : Table)
    (ts2 : List Table)
    (hgate : args.yes = true)
    (hsplit : TABLES_TO_MIGRATE = ts1 ++ t :: ts2)
    (hok : ∀ u ∈ ts1, failAt u = .noFail)
    (hfail : ∀ d', (migrate_table src d' t 1000 (failAt t)).ok = false) :
    (mainRun args src s0 d0 failAt).exitCode = 1 ∧
    (mainRun args src s0 d0 failAt).trace = ts1 ++ [t] ∧
    ∀ u ∈ ts2, u ∉ (mainRun args src s0 d0 failAt).trace := by
  have hstop := runTablesAux_fail_stop src failAt 1000 t hfail ts1 ts2 d0 hok
  have hcond : ¬ (¬ args.yes ∧ pyToLower (pyStrip args.response) ≠ "y") := by
    rw [hgate]; simp
  have hmain : mainRun args src s0 d0 failAt =
      ⟨1, ensure_schema_exists s0,
       (runTables src d0 failAt 1000).1,
       (runTables src d0 failAt 1000).2.2, true, none⟩ := by
    rw [mainRun, if_neg hcond, if_neg (by rw [runTables, hsplit, hstop.1]; simp)]
  rw [hmain]
  refine ⟨rfl, ?_, ?_⟩
  · rw [runTables, hsplit, hstop.2]
  · intro u hu2 hmem
    rw [runTables, hsplit, hstop.2] at hmem
    have hnd : (ts1 ++ t :: ts2).Nodup := by
      rw [← hsplit]; decide
    rcases List.mem_append.mp hmem with h1 | h1
    · exact List.disjoint_of_nodup_append hnd h1
        (List.mem_cons_of_mem t hu2)
    · have h2 : u = t := by simpa using h1
      subst h2
      exact (List.nodup_cons.mp (List.nodup_append.mp hnd).2.1).1 hu2

/-- A failure injection for the witness run: the copy of `meal_logs`
raises during its insert transaction; every other table copies cleanly. -/
def sampleFailAt : Table → FailPhase
  | .meal_logs => .duringWrite
  | _ => .noFail

/-- Witness for C7 at a concrete input: with the failure injected at
`meal_logs`, the run attempts exactly `people` then `meal_logs`, never
reaches `daily_meal_scores` or `interactions`, and exits with status 1. -/
theorem c7_fail_fast_witness :
    (mainRun ⟨true, ""⟩ sampleSrc ⟨true, true, true, true⟩ sampleDest
        sampleFailAt).exitCode = 1 ∧
    (mainRun ⟨true, ""⟩ sampleSrc ⟨true, true, true, true⟩ sampleDest
        sampleFailAt).trace = [Table.people, Table.meal_logs] ∧
    Table.interactions ∉
      (mainRun ⟨true, ""⟩ sampleSrc ⟨true, true, true, true⟩ sampleDest
        sampleFailAt).trace :=
  have h := c7_fail_fast ⟨true, ""⟩ sampleSrc ⟨true, true, true, true⟩
    sampleDest sampleFailAt [.people] .meal_logs
    [.daily_meal_scores, .interactions] rfl rfl (by decide)
    (fun _ => rfl)
  ⟨h.1, h.2.1, h.2.2 .interactions (by decide)⟩

/-- The sequence value left behind by a successful copy with resync of a
row list: one past the maximum migrated id (`COALESCE(MAX(id), 1) + 1`
on an empty list). -/
def seqAfterCopy (rows : List Row) : Nat :=
  (resetSequence ⟨rows, 1⟩).seqNext

theorem migrate_dest_people (src d : DB) (bs : Nat) (hbs : 0 < bs) :
    (migrate_table src d .people bs .noFail).dest =
      if src.people.rows.length = 0 then d
      else { d with
        people := ⟨src.people.rows, seqAfterCopy src.people.rows⟩,
        interactions := TableData.truncated } := by
  by_cases h : src.people.rows.length = 0 <;>
    simp +decide [migrate_table, get_table_count, DB.get, DB.set, h,
      truncateCascade, referencedBy, writeRows_eq _ _ _ hbs,
      TableData.truncated, resetSequence, seqAfterCopy]

theorem migrate_dest_meal_logs (src d : DB) (bs : Nat) (hbs : 0 < bs) :
    (migrate_table src d .meal_logs bs .noFail).dest =
      if src.meal_logs.rows.length = 0 then d
      else { d with
        meal_logs := ⟨src.meal_logs.rows, seqAfterCopy src.meal_logs.rows⟩ } := by
  by_cases h : src.meal_logs.rows.length = 0 <;>
    simp +decide [migrate_table, get_table_count, DB.get, DB.set, h,
      truncateCascade, referencedBy, writeRows_eq _ _ _ hbs,
      TableData.truncated, resetSequence, seqAfterCopy]

theorem migrate_dest_daily (src d : DB) (bs : Nat) (hbs : 0 < bs) :
    (migrate_table src d .daily_meal_scores bs .noFail).dest =
      if src.daily_meal_scores.rows.length = 0 then d
      else { d with
        daily_meal_scores := ⟨src.daily_meal_scores.rows, 1⟩ } := by
  by_cases h : src.daily_meal_scores.rows.length = 0 <;>
    simp +decide [migrate_table, get_table_count, DB.get, DB.set, h,
      truncateCascade, referencedBy, writeRows_eq _ _ _ hbs,
      TableData.truncated]

theorem migrate_dest_interactions (src d : DB) (bs : Nat) (hbs : 0 < bs) :
    (migrate_table src d .interactions bs .noFail).dest =
      if src.interactions.rows.length = 0 then d
      else { d with
        interactions := ⟨src.interactions.rows,
          seqAfterCopy src.interactions.rows⟩ } := by
  by_cases h : src.interactions.rows.length = 0 <;>
    simp +decide [migrate_table, get_table_count, DB.get, DB.set, h,
      truncateCascade, referencedBy, writeRows_eq _ _ _ hbs,
      TableData.truncated, resetSequence, seqAfterCopy]

/-- The closed form of one failure-free run: per table, the destination
ends at the source rows (with resynced sequence) when the source is
nonempty, keeps its prior state when the source is empty — except that
`interactions`, emptied by `people`'s cascading truncate, stays empty
when its own source is empty but `people`'s is not. -/
def expectedRun (src d : DB) : DB :=
  { people :=
      if src.people.rows.length = 0 then d.people
      else ⟨src.people.rows, seqAfterCopy src.people.rows⟩,
    meal_logs :=
      if src.meal_logs.rows.length = 0 then d.meal_logs
      else ⟨src.meal_logs.rows, seqAfterCopy src.meal_logs.rows⟩,
    daily_meal_scores :=
      if src.daily_meal_scores.rows.length = 0 then d.daily_meal_scores
      else ⟨src.daily_meal_scores.rows, 1⟩,
    interactions :=
      if src.interactions.rows.length = 0 then
        (if src.people.rows.length = 0 then d.interactions
         else TableData.truncated)
      else ⟨src.interactions.rows, seqAfterCopy src.interactions.rows⟩ }

theorem runTables_noFail_eq (src d : DB) (bs : Nat) (hbs : 0 < bs) :
    (runTables src d (fun _ => .noFail) bs).1 = expectedRun src d := by
  by_cases hp : src.people.rows.length = 0 <;>
  by_cases hm : src.meal_logs.rows.length = 0 <;>
  by_cases hd : src.daily_meal_scores.rows.length = 0 <;>
  by_cases hi : src.interactions.rows.length = 0 <;>
    simp [runTables, TABLES_TO_MIGRATE, runTablesAux,
      migrate_table_noFail_ok, hbs, migrate_dest_people,
      migrate_dest_meal_logs, migrate_dest_daily,
      migrate_dest_interactions, expectedRun, hp, hm, hd, hi]

theorem expectedRun_idem (src d : DB) :
    expectedRun src (expectedRun src d) = expectedRun src d := by
  by_cases hp : src.people.rows.length = 0 <;>
  by_cases hm : src.meal_logs.rows.length = 0 <;>
  by_cases hd : src.daily_meal_scores.rows.length = 0 <;>
  by_cases hi : src.interactions.rows.length = 0 <;>
    simp [expectedRun, hp, hm, hd, hi]

/-- C8: running the whole failure-free migration twice against an
unchanged source leaves, for every table, the same destination row count
as running it once (in fact the same destination state). -/
theorem c8_idempotent (src d : DB) (bs : Nat) (hbs : 0 < bs) (t : Table) :
    get_table_count
        (runTables src (runTables src d (fun _ => .noFail) bs).1
          (fun _ => .noFail) bs).1 t
      = get_table_count (runTables src d (fun _ => .noFail) bs).1 t := by
  rw [runTables_noFail_eq src d bs hbs,
    runTables_noFail_eq src (expectedRun src d) bs hbs, expectedRun_idem]

/-- Witness for C8 at a concrete input: the second run over the sample
databases reproduces the first run's `daily_meal_scores` count (the
stale row kept by the zero-source skip included). -/
theorem c8_idempotent_witness :
    (0 : Nat) < 1000 ∧
    get_table_count
        (runTables sampleSrc
          (runTables sampleSrc sampleDest (fun _ => .noFail) 1000).1
          (fun _ => .noFail) 1000).1 .daily_meal_scores
      = get_table_count
          (runTables sampleSrc sampleDest (fun _ => .noFail) 1000).1
          .daily_meal_scores :=
  ⟨by decide,
   c8_idempotent sampleSrc sampleDest 1000 (by decide)
     .daily_meal_scores⟩

/-- C9 counterexample: a successful copy of `people` (2 source rows)
returns no `CopyResult` — the script's `migrate_table` returns `None` on
every path, so no structured result carrying the re-read destination
count is ever handed to the caller. -/
theorem c9_counterexample :
    ¬ ∃ r : CopyResult,
        (migrate_table sampleSrc sampleDest .people 1000 .noFail).retval
          = some r := by
  intro h
  rcases h with ⟨r, hr⟩
  have hn : (migrate_table sampleSrc sampleDest .people 1000
      .noFail).retval = none := by decide
  rw [hn] at hr
  cases hr

theorem migrate_table_noFail_logged (src dest : DB) (t : Table)
    (bs : Nat) (h0 : get_table_count src t ≠ 0) :
    (migrate_table src dest t bs .noFail).retval = none ∧
    (migrate_table src dest t bs .noFail).loggedDestCount
      = some (get_table_count (migrate_table src dest t bs .noFail).dest t) := by
  simp only [migrate_table, h0, if_false, reduceCtorEq]
  split <;> simp

/-- C9 amended: after a successful nonempty copy, `migrate_table`
re-reads the destination row count (it equals the source count captured
at the start) and writes it to the completion log line — but it returns
`None`: no `CopyResult` is produced, and the run's results exist only as
log text. -/
theorem c9_logged_not_returned (src dest : DB) (t : Table) (bs : Nat)
    (hbs : 0 < bs) (h : 0 < get_table_count src t) :
    (migrate_table src dest t bs .noFail).retval = none ∧
    (migrate_table src dest t bs .noFail).loggedDestCount
      = some (get_table_count src t) := by
  have h0 : get_table_count src t ≠ 0 := by omega
  have hl := migrate_table_noFail_logged src dest t bs h0
  refine ⟨hl.1, ?_⟩
  rw [hl.2]
  congr 1
  rw [get_table_count, migrate_table_get_self src dest t bs hbs h0]
  split <;> simp [resetSequence, get_table_count]

/-- Witness for the amended C9 at a concrete input: the `meal_logs` copy
logs destination count 1 (= source count) and returns `None`. -/
theorem c9_logged_not_returned_witness :
    0 < get_table_count sampleSrc .meal_logs ∧
    ((migrate_table sampleSrc sampleDest .meal_logs 1000
        .noFail).retval = none ∧
     (migrate_table sampleSrc sampleDest .meal_logs 1000
        .noFail).loggedDestCount
       = some (get_table_count sampleSrc .meal_logs)) :=
  ⟨by decide,
   c9_logged_not_returned sampleSrc sampleDest .meal_logs 1000
     (by decide) (by decide)⟩

/-- C10: when the `--yes` flag is absent and the operator's response,
stripped and lowercased, is not exactly `y`, `main` exits with status 0
having invoked `migrate_table` on no table and left every destination row
untouched — but the liveness probes and the schema bootstrap have already
run, so all four tables exist afterwards even when some did not before. -/
theorem c10_decline_gate (args : MainArgs) (src : DB) (s0 : SchemaState)
    (d0 : DB) (failAt : Table → FailPhase)
    (hyes : args.yes = false)
    (hresp : pyToLower (pyStrip args.response) ≠ "y") :
    (mainRun args src s0 d0 failAt).exitCode = 0 ∧
    (mainRun args src s0 d0 failAt).db = d0 ∧
    (mainRun args src s0 d0 failAt).trace = [] ∧
    (mainRun args src s0 d0 failAt).schema = ⟨true, true, true, true⟩ ∧
    (mainRun args src s0 d0 failAt).probesRan = true := by
  have hcond : ¬ args.yes ∧ pyToLower (pyStrip args.response) ≠ "y" := by
    rw [hyes]
    exact ⟨by simp, hresp⟩
  simp [mainRun, hcond, ensure_schema_exists]

/-- Operator input declining the prompt: no `--yes`, response `"  N "`
(strips and lowercases to `"n"`). -/
def declineArgs : MainArgs := ⟨false, "  N "⟩

/-- Witness for C10 at a concrete input: declining with `"  N "` over a
destination whose `people` and `daily_meal_scores` tables do not yet
exist leaves the data untouched, migrates nothing, exits 0 — and the
bootstrapped tables now all exist. -/
theorem c10_decline_gate_witness :
    declineArgs.yes = false ∧
    pyToLower (pyStrip declineArgs.response) ≠ "y" ∧
    ((mainRun declineArgs sampleSrc ⟨false, true, false, true⟩ sampleDest
        (fun _ => .noFail)).exitCode = 0 ∧
     (mainRun declineArgs sampleSrc ⟨false, true, false, true⟩ sampleDest
        (fun _ => .noFail)).db = sampleDest ∧
     (mainRun declineArgs sampleSrc ⟨false, true, false, true⟩ sampleDest
        (fun _ => .noFail)).trace = [] ∧
     (mainRun declineArgs sampleSrc ⟨false, true, false, true⟩ sampleDest
        (fun _ => .noFail)).schema = ⟨true, true, true, true⟩ ∧
     (mainRun declineArgs sampleSrc ⟨false, true, false, true⟩ sampleDest
        (fun _ => .noFail)).probesRan = true) :=
  ⟨rfl, by decide,
   c10_decline_gate declineArgs sampleSrc ⟨false, true, false, true⟩
     sampleDest (fun _ => .noFail) rfl (by decide)⟩
